import Mathlib

/-!
Verification of the travel-agent backend: a shallow embedding of the
SQLite-backed TTL cache (`cache.service.js`), the search-provider adapter
(`search.service.js`) and the recommendation orchestrator
(`recommendations.controller.js`), together with theorems settling the
spec's testable properties.
-/

set_option linter.unusedVariables false

namespace TravelAgent

/-! ## TTL cache — `src/backend/src/services/cache.service.js`

The cache is a SQLite table `cache(key, value, expires_at)` behind a module
flag `cacheReady`.  We model the table as an association list with unique
keys (SQLite primary key; `INSERT OR REPLACE` overwrites), the clock as an
epoch-seconds `Nat` passed explicitly, and the possibility that the storage
layer throws by a `dbFail` flag: every service function wraps its database
access in `try/catch` and degrades to a miss / no-op.  Values are stored
serialized; `JSON.parse ∘ JSON.stringify` round-trips, so we keep the
serialized string itself. -/

/-- One row of the `cache` table: serialized value and absolute expiry
    (epoch seconds). -/
structure CacheRow where
  value : String
  expiresAt : Nat
deriving DecidableEq, Repr

/-- Cache-service state: the `cacheReady` flag plus the `cache` table. -/
structure CacheState where
  ready : Bool
  store : List (String × CacheRow)
deriving DecidableEq, Repr

/-- Row lookup, `SELECT ... FROM cache WHERE key = ?` (keys are unique). -/
def lookupRow : List (String × CacheRow) → String → Option CacheRow
  | [], _ => none
  | (k, r) :: t, key => if k = key then some r else lookupRow t key

/-- `INSERT OR REPLACE INTO cache (key, value, expires_at)`: replaces the
    row with the same key, else appends. -/
def upsertRow : List (String × CacheRow) → String → CacheRow → List (String × CacheRow)
  | [], key, r => [(key, r)]
  | (k, r0) :: t, key, r =>
    if k = key then (key, r) :: t else (k, r0) :: upsertRow t key r

/-- Body of `getCached`'s `try` block: the db access
    (`SELECT value FROM cache WHERE key = ? AND expires_at > ?`), which may
    throw (`dbFail`). -/
def getCachedTry (st : CacheState) (dbFail : Bool) (now : Nat) (key : String) :
    Except String (Option String) :=
  if dbFail then .error "db error"
  else .ok (match lookupRow st.store key with
    | some r => if now < r.expiresAt then some r.value else none
    | none => none)

/-- `getCached(key)`: `null` when the cache is not ready; otherwise the
    `try` body with the `catch` absorbing any storage error into `null`.
    The table is never modified (the function only runs a SELECT). -/
def getCached (st : CacheState) (dbFail : Bool) (now : Nat) (key : String) :
    Option String :=
  if !st.ready then none
  else match getCachedTry st dbFail now key with
    | .ok v => v
    | .error _ => none

/-- Body of `setCache`'s `try` block: the upsert with
    `expiresAt = now + ttl`, which may throw. -/
def setCacheTry (st : CacheState) (dbFail : Bool) (now : Nat)
    (key value : String) (ttl : Nat) : Except String CacheState :=
  if dbFail then .error "db error"
  else .ok { st with store := upsertRow st.store key ⟨value, now + ttl⟩ }

/-- `setCache(key, value, ttl)`: no-op when not ready; storage errors are
    caught and leave the table unchanged. -/
def setCache (st : CacheState) (dbFail : Bool) (now : Nat)
    (key value : String) (ttl : Nat) : CacheState :=
  if !st.ready then st
  else match setCacheTry st dbFail now key value ttl with
    | .ok st2 => st2
    | .error _ => st

/-- Body of `deleteCache`'s `try` block: `DELETE FROM cache WHERE key = ?`. -/
def deleteCacheTry (st : CacheState) (dbFail : Bool) (key : String) :
    Except String CacheState :=
  if dbFail then .error "db error"
  else .ok { st with store := st.store.filter (fun kr => !(kr.1 == key)) }

/-- `deleteCache(key)`: no-op when not ready; storage errors absorbed. -/
def deleteCache (st : CacheState) (dbFail : Bool) (key : String) : CacheState :=
  if !st.ready then st
  else match deleteCacheTry st dbFail key with
    | .ok st2 => st2
    | .error _ => st

/-- Body of `cleanupExpiredCache`'s `try` block:
    `DELETE FROM cache WHERE expires_at < ?`. -/
def cleanupExpiredCacheTry (st : CacheState) (dbFail : Bool) (now : Nat) :
    Except String CacheState :=
  if dbFail then .error "db error"
  else .ok { st with store := st.store.filter (fun kr => !(kr.2.expiresAt < now : Bool)) }

/-- `cleanupExpiredCache()` (the periodic sweep): no-op when not ready;
    storage errors absorbed. -/
def cleanupExpiredCache (st : CacheState) (dbFail : Bool) (now : Nat) : CacheState :=
  if !st.ready then st
  else match cleanupExpiredCacheTry st dbFail now with
    | .ok st2 => st2
    | .error _ => st

/-! ## Data model — normalized entities of `search.service.js` -/

/-- `price` field of a normalized `FlightOption` (currency amounts are
    modelled as integers; only ordering and addition matter here). -/
structure Price where
  total : Int
  currency : String
  perTraveler : Int
deriving DecidableEq, Repr

/-- A departure/arrival endpoint of an itinerary or segment. -/
structure Endpoint where
  airport : String
  airportName : String
  time : String
deriving DecidableEq, Repr

/-- One normalized flight segment. -/
structure Segment where
  carrier : String
  flightNumber : String
  aircraft : String
  departure : Endpoint
  arrival : Endpoint
  duration : Nat
deriving DecidableEq, Repr

/-- The `outbound` itinerary of a normalized `FlightOption`. -/
structure Itinerary where
  departure : Endpoint
  arrival : Endpoint
  duration : Nat
  stops : Nat
  segments : List Segment
deriving DecidableEq, Repr

/-- A normalized flight option (the fields the orchestrator and the
    range search read). -/
structure FlightOption where
  id : String
  price : Price
  outbound : Itinerary
  searchDate : Option String
deriving DecidableEq, Repr

/-- One offer attached to a normalized hotel
    (`offers[0].price.total` is what the fallback reads). -/
structure HotelOffer where
  total : Int
  perNight : Int
  currency : String
deriving DecidableEq, Repr

/-- A normalized hotel option. -/
structure HotelOption where
  id : String
  name : String
  offers : List HotelOffer
deriving DecidableEq, Repr

/-! ## Raw provider payloads and `normalizeFlightOption` -/

/-- A raw Google-Flights airport object (`departure_airport` /
    `arrival_airport`); every field may be absent. -/
structure RawAirport where
  id : Option String
  name : Option String
  time : Option String
deriving DecidableEq, Repr

/-- A raw Google-Flights segment (one element of `option.flights`). -/
structure RawSegment where
  airline : Option String
  flight_number : Option String
  airplane : Option String
  departure_airport : Option RawAirport
  arrival_airport : Option RawAirport
  duration : Option Nat
deriving DecidableEq, Repr

/-- A raw Google-Flights option (the fields `normalizeFlightOption`
    reads; `flights` is the segment list, `none` when the field is
    absent from the payload). -/
structure RawOption where
  flights : Option (List RawSegment)
  price : Option Int
  total_duration : Option Nat
  travel_class : Option String
deriving DecidableEq, Repr

/-- JavaScript `x?.f || ''` on an optional airport field. -/
def fieldOr (o : Option RawAirport) (f : RawAirport → Option String) : String :=
  match o with
  | some a => (f a).getD ""
  | none => ""

/-- `normalizeFlightOption(option, currency, type)` restricted to one raw
    segment: builds the normalized segment. -/
def normalizeSegment (seg : RawSegment) : Segment :=
  { carrier := seg.airline.getD ""
    flightNumber := seg.flight_number.getD ""
    aircraft := seg.airplane.getD ""
    departure :=
      { airport := fieldOr seg.departure_airport (·.id)
        airportName := fieldOr seg.departure_airport (·.name)
        time := fieldOr seg.departure_airport (·.time) }
    arrival :=
      { airport := fieldOr seg.arrival_airport (·.id)
        airportName := fieldOr seg.arrival_airport (·.name)
        time := fieldOr seg.arrival_airport (·.time) }
    duration := seg.duration.getD 0 }

/-- `normalizeFlightOption(option, currency, type)`: `null` when
    `option.flights` is absent or empty; otherwise the normalized
    `FlightOption` whose outbound itinerary takes departure data from the
    first segment, arrival data from the last, `stops = segments.length - 1`.
    The synthetic id embeds the current timestamp and a random suffix;
    both are passed in explicitly (`nowMs`, `rand`). -/
def normalizeFlightOption (nowMs : Nat) (rand : String) (option : RawOption)
    (currency : String) : Option FlightOption :=
  match option.flights with
  | none => none
  | some [] => none
  | some (first :: rest) =>
    let flightSegments := first :: rest
    let lastFlight := flightSegments.getLast (by simp)
    some
      { id := (first.flight_number.getD "FL") ++ "-" ++
              fieldOr first.departure_airport (·.id) ++ "-" ++
              toString nowMs ++ "-" ++ rand
        price :=
          { total := option.price.getD 0
            currency := currency
            perTraveler := option.price.getD 0 }
        outbound :=
          { departure :=
              { airport := fieldOr first.departure_airport (·.id)
                airportName := fieldOr first.departure_airport (·.name)
                time := fieldOr first.departure_airport (·.time) }
            arrival :=
              { airport := fieldOr lastFlight.arrival_airport (·.id)
                airportName := fieldOr lastFlight.arrival_airport (·.name)
                time := fieldOr lastFlight.arrival_airport (·.time) }
            duration := option.total_duration.getD 0
            stops := flightSegments.length - 1
            segments := flightSegments.map normalizeSegment }
        searchDate := none }

/-! ## Date-range sampling — `searchFlightsInRange` -/

/-- The date loop of `searchFlightsInRange`: starting at `start`, push the
    current date and advance by 3 days while `current <= end`.  Dates are
    day numbers. -/
def strideDates (start e : Nat) : List Nat :=
  if h : start ≤ e then start :: strideDates (start + 3) e else []
termination_by e + 1 - start
decreasing_by omega

/-- `dates.slice(0, 5)`: the sampled departure dates, capped at 5 to
    conserve API calls. -/
def sampleDates (start e : Nat) : List Nat :=
  (strideDates start e).take 5

/-- Number of underlying `searchFlights` calls issued by
    `searchFlightsInRange`: one per sampled date. -/
def rangeSearchCallCount (start e : Nat) : Nat :=
  (sampleDates start e).length

/-- The reducer of the best-deal fold:
    `(best, flight) => flight.price.total < best.price.total ? flight : best`. -/
def bestDealStep (best flight : FlightOption) : FlightOption :=
  if flight.price.total < best.price.total then flight else best

/-- The best-deal selection of `searchFlightsInRange`:
    `allFlights.length > 0 ? allFlights.reduce(bestDealStep) : null`
    (a `reduce` without seed starts from the first element). -/
def bestDeal (allFlights : List FlightOption) : Option FlightOption :=
  match allFlights with
  | [] => none
  | f :: rest => some (rest.foldl bestDealStep f)

/-! ## Web-search adapter — `SearchApiService.search` (`search.service.js`)

One call of the generic `search(params)` method.  The environment of the
call is passed explicitly: whether the provider is configured (an API key
is present), the current process-wide `remainingSearches` counter, the
result of the cache probe (`cacheKey && isCacheReady() && getCached(...)`,
`none` on a miss, no key, or a not-ready cache), and what the network
would answer if contacted (`axios.get`, `Except` for a thrown error). -/

/-- Outcome of one `search` call: the value returned or error thrown, the
    new `remainingSearches` counter, and how many network requests were
    performed. -/
structure SearchCallResult where
  result : Except String String
  remaining : Int
  networkCalls : Nat
deriving Repr

/-- `SearchApiService.search(params)`: cache probe first (a hit returns
    immediately); then the configuration and quota precondition checks,
    each throwing before any network I/O; then the network call, with the
    quota decremented only after it succeeds. -/
def searchApiSearch (configured : Bool) (remaining : Int)
    (cached : Option String) (network : Except String String) : SearchCallResult :=
  match cached with
  | some v => ⟨.ok v, remaining, 0⟩
  | none =>
    if !configured then ⟨.error "SearchAPI key not configured", remaining, 0⟩
    else if remaining ≤ 0 then ⟨.error "Search API quota exhausted", remaining, 0⟩
    else match network with
      | .ok data => ⟨.ok data, remaining - 1, 1⟩
      | .error e => ⟨.error e, remaining, 1⟩

/-! ## Recommendation orchestrator — `recommendations.controller.js` -/

/-- A recommendation as produced by the analysis step or the fallback
    generator. -/
structure Recommendation where
  rank : Nat
  flightId : String
  hotelId : Option String
  totalPrice : Int
  valueScore : Int
  reasoning : String
  pros : List String
  cons : List String
  bestFor : String
  suggestedDates : Option String
deriving DecidableEq, Repr

/-- JavaScript's `Array.prototype.map` with the element index
    (`(x, i) => f i x`), the accumulator carrying the next index. -/
def jsMapIdx (f : Nat → α → β) : Nat → List α → List β
  | _, [] => []
  | i, a :: t => f i a :: jsMapIdx f (i + 1) t

/-- JavaScript `hotels[0]?.id || null`: the first hotel's id, with a
    falsy (empty) id collapsing to `null`. -/
def firstHotelId (hotels : List HotelOption) : Option String :=
  match hotels.head? with
  | some h => if h.id = "" then none else some h.id
  | none => none

/-- JavaScript `hotels[0]?.offers?.[0]?.price?.total || 0`. -/
def firstHotelOfferTotal (hotels : List HotelOption) : Int :=
  (((hotels.head?).bind (fun h => h.offers.head?)).map (fun o => o.total)).getD 0

/-- The fallback recommendation generator (the `catch` branch of the AI
    analysis step): `flights.slice(0, 5).map((flight, index) => ...)` with
    `rank = index + 1`, the first hotel's id (or `null`), the flight price
    plus the first hotel offer's price, and `valueScore = 70 - index * 5`. -/
def fallbackRecommendations (flights : List FlightOption)
    (hotels : List HotelOption) (searchDates : Option String) : List Recommendation :=
  jsMapIdx (fun index flight =>
    { rank := index + 1
      flightId := flight.id
      hotelId := firstHotelId hotels
      totalPrice := flight.price.total + firstHotelOfferTotal hotels
      valueScore := 70 - ((index : Int) * 5)
      reasoning := "Flight option " ++ toString (index + 1) ++ " - " ++
        flight.price.currency ++ " " ++ toString flight.price.total
      pros := ["Direct booking available"]
      cons := ["AI analysis unavailable"]
      bestFor := "General travelers"
      suggestedDates := searchDates }) 0 (flights.take 5)

/-- A recommendation after step 5's join against the fetched collections. -/
structure EnrichedRecommendation where
  base : Recommendation
  flight : Option FlightOption
  hotel : Option HotelOption
  suggestedDates : Option String
deriving DecidableEq, Repr

/-- Step 5 of the orchestrator:
    `analysis.recommendations.map(rec => ({...rec, flight: flights.find(...) || null, hotel: hotels.find(...) || null, suggestedDates: rec.suggestedDates || searchDates}))`.
    A `flightId`/`hotelId` with no match joins to `null`; a `null`
    `hotelId` matches no hotel (`===` against `null` is always false). -/
def enrichRecommendations (recs : List Recommendation)
    (flights : List FlightOption) (hotels : List HotelOption)
    (searchDates : Option String) : List EnrichedRecommendation :=
  recs.map (fun r =>
    { base := r
      flight := flights.find? (fun f => f.id == r.flightId)
      hotel := hotels.find? (fun h => (some h.id : Option String) == r.hotelId)
      suggestedDates :=
        match r.suggestedDates with
        | some d => some d
        | none => searchDates })

/-- The body of a `/recommendations` request (the validated fields;
    `none` models an absent field, `some ""` an empty one — both falsy). -/
structure RecRequest where
  origin : Option String
  destination : Option String
  periodStart : Option String
  periodEnd : Option String
  departureDate : Option String
deriving DecidableEq, Repr

/-- JavaScript truthiness of an optional string field. -/
def jsTruthy : Option String → Bool
  | none => false
  | some s => !(s == "")

/-- Externally observable events of one `getRecommendations` request. -/
inductive ControllerEvent where
  | outboundCall (provider : String)
  | respondError (status : Nat) (message : String)
  | respondOk
deriving DecidableEq, Repr

/-- Whether an event is an outbound provider call. -/
def isOutboundCall : ControllerEvent → Bool
  | .outboundCall _ => true
  | _ => false

/-- The event trace of `getRecommendations` up to the response: the two
    validation checks each return a 400 before any service call; past
    them the handler calls the flight search (range or specific-date),
    then the hotel search, then responds.  (Later steps — enrichment
    web searches and the LLM call — happen between the hotel call and the
    response and are not distinguished here; only the position of the
    validation returns matters.) -/
def getRecommendationsTrace (r : RecRequest) : List ControllerEvent :=
  if !(jsTruthy r.origin) || !(jsTruthy r.destination) then
    [.respondError 400 "Missing required parameters: origin and destination"]
  else
    let useDateRange := jsTruthy r.periodStart && jsTruthy r.periodEnd
    if !useDateRange && !(jsTruthy r.departureDate) then
      [.respondError 400
        "Please provide either a date range (periodStart, periodEnd) or specific departureDate"]
    else
      (if useDateRange then [ControllerEvent.outboundCall "searchFlightsInRange"]
       else [ControllerEvent.outboundCall "searchFlights"]) ++
      [.outboundCall "searchHotels", .respondOk]

/-! ## Concrete fixtures (used by witnesses and counterexamples) -/

/-- A minimal flight option with the given id and total price. -/
def mkFlight (id : String) (total : Int) : FlightOption :=
  { id := id
    price := { total := total, currency := "USD", perTraveler := total }
    outbound :=
      { departure := ⟨"JFK", "John F Kennedy Intl", "2025-06-01T08:00"⟩
        arrival := ⟨"LHR", "Heathrow", "2025-06-01T20:00"⟩
        duration := 420
        stops := 0
        segments := [] }
    searchDate := none }

/-- Fixture: the spec's sampled-price example `{d1:100, d2:80, d3:120}`. -/
def flightD1 : FlightOption := mkFlight "deal-1" 100

/-- Fixture, price 80 (the cheapest of the example). -/
def flightD2 : FlightOption := mkFlight "deal-2" 80

/-- Fixture, price 120. -/
def flightD3 : FlightOption := mkFlight "deal-3" 120

/-- Fixture hotel with one offer. -/
def hotelH1 : HotelOption :=
  { id := "hotel-1", name := "Test Hotel", offers := [⟨700, 100, "USD"⟩] }

/-- Fixture raw segment JFK → BOS. -/
def rawSeg1 : RawSegment :=
  { airline := some "BA"
    flight_number := some "BA112"
    airplane := some "777"
    departure_airport := some ⟨some "JFK", some "John F Kennedy Intl", some "2025-06-01 08:00"⟩
    arrival_airport := some ⟨some "BOS", some "Logan Intl", some "2025-06-01 09:10"⟩
    duration := some 70 }

/-- Fixture raw segment BOS → LHR. -/
def rawSeg2 : RawSegment :=
  { airline := some "BA"
    flight_number := some "BA238"
    airplane := some "787"
    departure_airport := some ⟨some "BOS", some "Logan Intl", some "2025-06-01 11:00"⟩
    arrival_airport := some ⟨some "LHR", some "Heathrow", some "2025-06-01 22:30"⟩
    duration := some 400 }

/-- Fixture raw flight option with two segments (one stop). -/
def rawOpt1 : RawOption :=
  { flights := some [rawSeg1, rawSeg2]
    price := some 523
    total_duration := some 510
    travel_class := some "ECONOMY" }

/-! ## Helper lemmas -/

theorem lookupRow_upsertRow_self (s : List (String × CacheRow)) (key : String) (r : CacheRow) :
    lookupRow (upsertRow s key r) key = some r := by
  induction s with
  | nil => simp [upsertRow, lookupRow]
  | cons kr t ih =>
    obtain ⟨k, r0⟩ := kr
    by_cases h : k = key
    · simp [upsertRow, h, lookupRow]
    · simp [upsertRow, h, lookupRow, ih]

/-! ## C4: cache TTL round-trip -/

/-- C4.  For every key, value and positive ttl (cache ready, storage
    healthy): `getCached` immediately after `setCache` (clock unchanged)
    returns the value; `getCached` once the clock has advanced past the
    entry's expiry returns `none`; and the row itself is still in the
    table at any such later time — `getCached` never deletes an
    expired-but-unswept row (it returns no modified state at all; only
    `cleanupExpiredCache` removes rows). -/
theorem cache_ttl_roundtrip (st : CacheState) (now : Nat) (key v : String) (ttl : Nat)
    (hready : st.ready = true) (httl : 0 < ttl) :
    getCached (setCache st false now key v ttl) false now key = some v ∧
    (∀ now2, now + ttl ≤ now2 →
      getCached (setCache st false now key v ttl) false now2 key = none ∧
      lookupRow (setCache st false now key v ttl).store key = some ⟨v, now + ttl⟩) := by
  have hset : setCache st false now key v ttl =
      { st with store := upsertRow st.store key ⟨v, now + ttl⟩ } := by
    simp [setCache, setCacheTry, hready]
  have hlk : lookupRow (setCache st false now key v ttl).store key = some ⟨v, now + ttl⟩ := by
    rw [hset]
    exact lookupRow_upsertRow_self st.store key ⟨v, now + ttl⟩
  refine ⟨?_, fun now2 h2 => ⟨?_, hlk⟩⟩
  · simp [getCached, getCachedTry, hset, hready, lookupRow_upsertRow_self]
    omega
  · simp [getCached, getCachedTry, hset, hready, lookupRow_upsertRow_self]
    omega

/-- Witness for `cache_ttl_roundtrip` at a concrete state, key and ttl. -/
theorem cache_ttl_roundtrip_witness :
    getCached (setCache ⟨true, []⟩ false 1000 "k" "v" 60) false 1000 "k" = some "v" ∧
    getCached (setCache ⟨true, []⟩ false 1000 "k" "v" 60) false 1060 "k" = none ∧
    lookupRow (setCache ⟨true, []⟩ false 1000 "k" "v" 60).store "k" = some ⟨"v", 1060⟩ := by
  have h := cache_ttl_roundtrip ⟨true, []⟩ 1000 "k" "v" 60 rfl (by decide)
  exact ⟨h.1, (h.2 1060 (by decide)).1, (h.2 1060 (by decide)).2⟩

/-! ## C7: cache operations degrade to miss / no-op, never fail -/

/-- C7.  Every cache operation absorbs failure: when the store is not
    ready, or when the underlying storage access throws (`dbFail`),
    `getCached` returns a miss and `setCache`/`deleteCache`/the
    `cleanupExpiredCache` sweep leave the state unchanged.  All four
    operations are total functions into plain values — no error value is
    ever returned to the caller (each `try` body's `Except.error` is
    caught in the operation itself). -/
theorem cache_ops_degrade (st : CacheState) (dbFail : Bool) (now : Nat)
    (key v : String) (ttl : Nat)
    (h : st.ready = false ∨ dbFail = true) :
    getCached st dbFail now key = none ∧
    setCache st dbFail now key v ttl = st ∧
    deleteCache st dbFail key = st ∧
    cleanupExpiredCache st dbFail now = st := by
  rcases h with h | h
  · simp [getCached, setCache, deleteCache, cleanupExpiredCache, h]
  · subst h
    by_cases hr : st.ready
    · simp [getCached, getCachedTry, setCache, setCacheTry, deleteCache, deleteCacheTry,
        cleanupExpiredCache, cleanupExpiredCacheTry, hr]
    · simp [getCached, setCache, deleteCache, cleanupExpiredCache, hr]

/-- Witness for `cache_ops_degrade`: a not-ready cache and a failing
    store, each on a concrete state. -/
theorem cache_ops_degrade_witness :
    (getCached ⟨false, []⟩ false 0 "k" = none ∧
      setCache ⟨false, []⟩ false 0 "k" "v" 60 = ⟨false, []⟩) ∧
    (getCached ⟨true, [("k", ⟨"v", 99⟩)]⟩ true 0 "k" = none ∧
      cleanupExpiredCache ⟨true, [("k", ⟨"v", 99⟩)]⟩ true 200 = ⟨true, [("k", ⟨"v", 99⟩)]⟩) := by
  have h1 := cache_ops_degrade ⟨false, []⟩ false 0 "k" "v" 60 (Or.inl rfl)
  have h2 := cache_ops_degrade ⟨true, [("k", ⟨"v", 99⟩)]⟩ true 200 "k" "v" 60 (Or.inr rfl)
  have h3 := cache_ops_degrade ⟨true, [("k", ⟨"v", 99⟩)]⟩ true 0 "k" "v" 60 (Or.inr rfl)
  exact ⟨⟨h1.1, h1.2.1⟩, ⟨h3.1, h2.2.2.2⟩⟩

/-! ## C3: web-search quota gating -/

/-- C3.  For every `search` call: if the remaining quota is ≤ 0 or the
    provider is unconfigured, no network request is performed, and — unless
    the call is answered from cache — the call fails (throws); a
    network-performing call that succeeds decrements the quota by exactly
    1; a call answered from cache returns the cached result, performs no
    network request, and leaves the quota unchanged. -/
theorem searchApiSearch_quota_gating (configured : Bool) (remaining : Int)
    (cached : Option String) (network : Except String String) :
    ((remaining ≤ 0 ∨ configured = false) →
      (searchApiSearch configured remaining cached network).networkCalls = 0 ∧
      (cached = none →
        ∃ e, (searchApiSearch configured remaining cached network).result = .error e)) ∧
    (cached = none → ∀ v,
      (searchApiSearch configured remaining cached network).result = .ok v →
      (searchApiSearch configured remaining cached network).remaining = remaining - 1 ∧
      (searchApiSearch configured remaining cached network).networkCalls = 1) ∧
    (∀ v, cached = some v →
      (searchApiSearch configured remaining cached network).result = .ok v ∧
      (searchApiSearch configured remaining cached network).remaining = remaining ∧
      (searchApiSearch configured remaining cached network).networkCalls = 0) := by
  cases cached with
  | some v =>
    refine ⟨fun _ => ⟨rfl, fun hcn => Option.noConfusion hcn⟩,
      ⟨fun hcn => Option.noConfusion hcn, fun w hw => ?_⟩⟩
    obtain rfl := Option.some.inj hw
    exact ⟨rfl, rfl, rfl⟩
  | none =>
    refine ⟨?_, ?_, fun v hv => by cases hv⟩
    · intro h
      by_cases hc : configured
      · subst hc
        rcases h with h | h
        · simp [searchApiSearch, h]
        · cases h
      · have : configured = false := by simpa using hc
        subst this
        simp [searchApiSearch]
    · intro _ v hv
      by_cases hc : configured
      · subst hc
        by_cases hq : remaining ≤ 0
        · simp [searchApiSearch, hq] at hv
        · cases network with
          | ok d => simp [searchApiSearch, hq]
          | error e => simp [searchApiSearch, hq] at hv
      · have : configured = false := by simpa using hc
        subst this
        simp [searchApiSearch] at hv

/-- Witness for `searchApiSearch_quota_gating` at concrete calls: an
    exhausted quota fails without network I/O, a successful call
    decrements 100 to 99, and a cache hit leaves the quota at 0. -/
theorem searchApiSearch_quota_gating_witness :
    ((searchApiSearch true 0 none (.ok "data")).networkCalls = 0 ∧
      ∃ e, (searchApiSearch true 0 none (.ok "data")).result = .error e) ∧
    ((searchApiSearch true 100 none (.ok "data")).remaining = 99 ∧
      (searchApiSearch true 100 none (.ok "data")).networkCalls = 1) ∧
    ((searchApiSearch true 0 (some "hit") (.error "down")).result = .ok "hit" ∧
      (searchApiSearch true 0 (some "hit") (.error "down")).remaining = 0 ∧
      (searchApiSearch true 0 (some "hit") (.error "down")).networkCalls = 0) := by
  have h1 := searchApiSearch_quota_gating true 0 none (.ok "data")
  have h2 := searchApiSearch_quota_gating true 100 none (.ok "data")
  have h3 := searchApiSearch_quota_gating true 0 (some "hit") (.error "down")
  refine ⟨⟨(h1.1 (Or.inl (by decide))).1, (h1.1 (Or.inl (by decide))).2 rfl⟩, ?_, ?_⟩
  · have := h2.2.1 rfl "data" (by rfl)
    simpa using this
  · exact h3.2.2 "hit" rfl

/-! ## C6: request validation before any outbound call -/

/-- C6.  A recommendation request with a missing (falsy) origin or
    destination, or with neither the (periodStart, periodEnd) pair nor a
    departureDate, is answered with a 400 client error carrying a
    non-empty message, and the handler performs zero outbound provider
    calls. -/
theorem getRecommendations_validation (r : RecRequest)
    (h : jsTruthy r.origin = false ∨ jsTruthy r.destination = false ∨
      ((jsTruthy r.periodStart && jsTruthy r.periodEnd) = false ∧
        jsTruthy r.departureDate = false)) :
    ∃ msg, getRecommendationsTrace r = [.respondError 400 msg] ∧ msg ≠ "" ∧
      (getRecommendationsTrace r).countP isOutboundCall = 0 := by
  by_cases h1 : (!(jsTruthy r.origin) || !(jsTruthy r.destination)) = true
  · refine ⟨"Missing required parameters: origin and destination", ?_, by decide, ?_⟩
    · simp [getRecommendationsTrace, h1]
    · simp [getRecommendationsTrace, h1, List.countP, List.countP.go, isOutboundCall]
  · have ho : jsTruthy r.origin = true := by
      cases hx : jsTruthy r.origin
      · exact absurd (by simp [hx]) h1
      · rfl
    have hd : jsTruthy r.destination = true := by
      cases hx : jsTruthy r.destination
      · exact absurd (by simp [hx]) h1
      · rfl
    rcases h with h | h | h
    · rw [ho] at h; cases h
    · rw [hd] at h; cases h
    · refine ⟨"Please provide either a date range (periodStart, periodEnd) or specific departureDate",
        ?_, by decide, ?_⟩
      · simp [getRecommendationsTrace, ho, hd, h.1, h.2]
      · simp [getRecommendationsTrace, ho, hd, h.1, h.2, List.countP, List.countP.go,
          isOutboundCall]

/-- Witness for `getRecommendations_validation`: a request with origin and
    destination but no dates at all. -/
theorem getRecommendations_validation_witness :
    ∃ msg,
      getRecommendationsTrace ⟨some "JFK", some "LHR", none, none, none⟩ =
        [.respondError 400 msg] ∧ msg ≠ "" ∧
      (getRecommendationsTrace ⟨some "JFK", some "LHR", none, none, none⟩).countP
        isOutboundCall = 0 :=
  getRecommendations_validation ⟨some "JFK", some "LHR", none, none, none⟩
    (Or.inr (Or.inr (by decide)))

/-! ## C2 and C10: date-range sampling -/

theorem strideDates_getElem? (i start e : Nat) :
    (strideDates start e)[i]? =
      if start + 3 * i ≤ e then some (start + 3 * i) else none := by
  induction i generalizing start with
  | zero =>
    rw [strideDates]
    by_cases h : start ≤ e
    · simp [h]
    · simp [h]
  | succ n ih =>
    rw [strideDates]
    by_cases h : start ≤ e
    · rw [dif_pos h, List.getElem?_cons_succ, ih (start + 3)]
      have h3 : start + 3 + 3 * n = start + 3 * (n + 1) := by ring
      rw [h3]
    · rw [dif_neg h, List.getElem?_nil, if_neg (by omega)]

theorem strideDates_length_le (start e : Nat) :
    (strideDates start e).length ≤ (e + 1 - start + 2) / 3 := by
  apply List.getElem?_eq_none_iff.mp
  rw [strideDates_getElem?]
  exact if_neg (by omega)

/-- C2.  `searchFlightsInRange` samples departure dates at a fixed stride
    of 3 days starting at `startDate` (the `i`-th sampled date, when
    present, is `start + 3 * i`), and issues at most
    `min(10, ceil(N / 3))` underlying single-date `searchFlights` calls
    for a window of `N = e + 1 - start` days (`ceil(N / 3) = (N + 2) / 3`).
    (The configured path is modelled; an unconfigured provider issues 0
    calls.) -/
theorem searchFlightsInRange_sampling_bound (start e : Nat) :
    rangeSearchCallCount start e ≤ min 10 ((e + 1 - start + 2) / 3) ∧
    (∀ i, (sampleDates start e)[i]? =
      if i < 5 ∧ start + 3 * i ≤ e then some (start + 3 * i) else none) := by
  constructor
  · have h1 := strideDates_length_le start e
    unfold rangeSearchCallCount sampleDates
    rw [List.length_take]
    omega
  · intro i
    unfold sampleDates
    rw [List.getElem?_take, strideDates_getElem?]
    by_cases h5 : i < 5
    · by_cases hle : start + 3 * i ≤ e
      · simp [h5, hle]
      · simp [h5, hle]
    · simp [h5]

/-- C10.  Regardless of the window's length, `searchFlightsInRange`
    samples at most 5 departure dates — exactly the first 5 of the
    stride-3 sequence starting at `startDate` — and therefore issues at
    most 5 underlying single-date `searchFlights` calls. -/
theorem searchFlightsInRange_capped_at_five (start e : Nat) :
    rangeSearchCallCount start e ≤ 5 ∧
    (∀ i, (sampleDates start e)[i]? =
      if i < 5 then (strideDates start e)[i]? else none) ∧
    (∀ i, (strideDates start e)[i]? =
      if start + 3 * i ≤ e then some (start + 3 * i) else none) := by
  refine ⟨?_, fun i => ?_, fun i => strideDates_getElem? i start e⟩
  · unfold rangeSearchCallCount sampleDates
    rw [List.length_take]
    omega
  · unfold sampleDates
    rw [List.getElem?_take]

/-! ## C5: best-deal selection -/

theorem foldl_bestDealStep_spec (l : List FlightOption) (a : FlightOption) :
    (l.foldl bestDealStep a = a ∧
      ∀ g ∈ l, a.price.total ≤ g.price.total) ∨
    (∃ l1 l2, l = l1 ++ (l.foldl bestDealStep a) :: l2 ∧
      (l.foldl bestDealStep a).price.total < a.price.total ∧
      (∀ g ∈ l1, (l.foldl bestDealStep a).price.total < g.price.total) ∧
      (∀ g ∈ l2, (l.foldl bestDealStep a).price.total ≤ g.price.total)) := by
  induction l generalizing a with
  | nil => exact Or.inl ⟨rfl, by simp⟩
  | cons g t ih =>
    rw [List.foldl_cons]
    by_cases hg : g.price.total < a.price.total
    · have hstep : bestDealStep a g = g := by simp [bestDealStep, hg]
      rw [hstep]
      rcases ih g with ⟨heq, hmin⟩ | ⟨l1, l2, hsplit, hlt, hl1, hl2⟩
      · refine Or.inr ⟨[], t, ?_, ?_, ?_, ?_⟩
        · rw [heq]
          simp
        · rw [heq]
          exact hg
        · intro x hx
          cases hx
        · intro x hx
          rw [heq]
          exact hmin x hx
      · refine Or.inr ⟨g :: l1, l2, ?_, lt_trans hlt hg, ?_, hl2⟩
        · rw [List.cons_append, ← hsplit]
        · intro x hx
          rcases List.mem_cons.mp hx with rfl | hx'
          · exact hlt
          · exact hl1 x hx'
    · have hstep : bestDealStep a g = a := by simp [bestDealStep, hg]
      rw [hstep]
      rcases ih a with ⟨heq, hmin⟩ | ⟨l1, l2, hsplit, hlt, hl1, hl2⟩
      · refine Or.inl ⟨heq, ?_⟩
        intro x hx
        rcases List.mem_cons.mp hx with rfl | hx'
        · exact le_of_not_lt hg
        · exact hmin x hx'
      · refine Or.inr ⟨g :: l1, l2, ?_, hlt, ?_, hl2⟩
        · rw [List.cons_append, ← hsplit]
        · intro x hx
          rcases List.mem_cons.mp hx with rfl | hx'
          · exact lt_of_lt_of_le hlt (le_of_not_lt hg)
          · exact hl1 x hx'

/-- C5.  `bestDeal` of an empty aggregate is `null`; and whenever
    `bestDeal` returns a flight, that flight occurs in the aggregate, its
    price is a global minimum of the aggregate, and every flight seen
    before it is strictly more expensive (so ties go to the
    earliest-seen flight in aggregation order). -/
theorem bestDeal_spec (l : List FlightOption) :
    bestDeal ([] : List FlightOption) = none ∧
    ∀ f, bestDeal l = some f →
      (∀ g ∈ l, f.price.total ≤ g.price.total) ∧
      ∃ l1 l2, l = l1 ++ f :: l2 ∧
        (∀ g ∈ l1, f.price.total < g.price.total) ∧
        (∀ g ∈ l2, f.price.total ≤ g.price.total) := by
  refine ⟨rfl, ?_⟩
  intro f hf
  cases l with
  | nil => cases hf
  | cons f0 rest =>
    have hf' : rest.foldl bestDealStep f0 = f := Option.some.inj hf
    rcases foldl_bestDealStep_spec rest f0 with ⟨heq, hmin⟩ | ⟨l1, l2, hsplit, hlt, hl1, hl2⟩
    · rw [hf'] at heq
      subst heq
      refine ⟨?_, [], rest, rfl, fun x hx => (List.not_mem_nil x hx).elim, hmin⟩
      intro x hx
      rcases List.mem_cons.mp hx with rfl | hx'
      · exact le_refl _
      · exact hmin x hx'
    · rw [hf'] at hsplit hlt hl1 hl2
      refine ⟨?_, f0 :: l1, l2, by rw [List.cons_append, ← hsplit], ?_, hl2⟩
      · intro x hx
        rcases List.mem_cons.mp hx with rfl | hx'
        · exact le_of_lt hlt
        · rw [hsplit] at hx'
          rcases List.mem_append.mp hx' with hx1 | hx2
          · exact le_of_lt (hl1 x hx1)
          · rcases List.mem_cons.mp hx2 with rfl | hx3
            · exact le_refl _
            · exact hl2 x hx3
      · intro x hx
        rcases List.mem_cons.mp hx with rfl | hx'
        · exact hlt
        · exact hl1 x hx'

/-- Witness for `bestDeal_spec` on the spec's example prices
    `{d1: 100, d2: 80, d3: 120}`: the 80-price flight is selected. -/
theorem bestDeal_spec_witness :
    (∀ g ∈ [flightD1, flightD2, flightD3],
        flightD2.price.total ≤ g.price.total) ∧
    ∃ l1 l2, [flightD1, flightD2, flightD3] = l1 ++ flightD2 :: l2 ∧
      (∀ g ∈ l1, flightD2.price.total < g.price.total) ∧
      (∀ g ∈ l2, flightD2.price.total ≤ g.price.total) :=
  (bestDeal_spec [flightD1, flightD2, flightD3]).2 flightD2 (by decide)

/-! ## C9: stops invariant of normalization -/

/-- C9.  Every `FlightOption` produced by `normalizeFlightOption`
    satisfies `stops = segments.length - 1` on its outbound itinerary. -/
theorem normalizeFlightOption_stops (nowMs : Nat) (rand : String) (o : RawOption)
    (currency : String) (r : FlightOption)
    (h : normalizeFlightOption nowMs rand o currency = some r) :
    r.outbound.stops = r.outbound.segments.length - 1 := by
  cases hf : o.flights with
  | none => simp [normalizeFlightOption, hf] at h
  | some l =>
    cases l with
    | nil => simp [normalizeFlightOption, hf] at h
    | cons first rest =>
      simp only [normalizeFlightOption, hf] at h
      obtain rfl := Option.some.inj h
      simp [List.length_map]

/-- Witness for `normalizeFlightOption_stops` on a concrete two-segment
    raw option. -/
theorem normalizeFlightOption_stops_witness :
    ∃ r, normalizeFlightOption 7 "abc" rawOpt1 "USD" = some r ∧
      r.outbound.stops = r.outbound.segments.length - 1 := by
  rcases hr : normalizeFlightOption 7 "abc" rawOpt1 "USD" with _ | r
  · exact absurd hr (by decide)
  · exact ⟨r, rfl, normalizeFlightOption_stops 7 "abc" rawOpt1 "USD" r hr⟩

/-! ## C8: join tolerance of the enrichment step -/

/-- C8.  Enrichment never drops a recommendation (the output has one
    entry per input recommendation, with the original fields preserved in
    `base`), and when a recommendation's `flightId` (resp. `hotelId`)
    matches no fetched flight (resp. hotel), its `flight` (resp. `hotel`)
    field is `null` rather than a failure. -/
theorem enrichRecommendations_join_tolerance (recs : List Recommendation)
    (flights : List FlightOption) (hotels : List HotelOption) (sd : Option String) :
    (enrichRecommendations recs flights hotels sd).length = recs.length ∧
    ∀ i (hi : i < (enrichRecommendations recs flights hotels sd).length)
      (hir : i < recs.length),
      (enrichRecommendations recs flights hotels sd)[i].base = recs[i] ∧
      ((∀ f ∈ flights, ¬(f.id = recs[i].flightId)) →
        (enrichRecommendations recs flights hotels sd)[i].flight = none) ∧
      ((∀ hh ∈ hotels, ¬((some hh.id : Option String) = recs[i].hotelId)) →
        (enrichRecommendations recs flights hotels sd)[i].hotel = none) := by
  refine ⟨by simp [enrichRecommendations], ?_⟩
  intro i hi hir
  simp only [enrichRecommendations, List.getElem_map]
  refine ⟨trivial, ?_, ?_⟩
  · intro hnone
    apply List.find?_eq_none.mpr
    intro x hx
    simp only [beq_iff_eq]
    exact hnone x hx
  · intro hnone
    apply List.find?_eq_none.mpr
    intro x hx
    simp only [beq_iff_eq]
    exact hnone x hx

/-- Witness for `enrichRecommendations_join_tolerance`: a single
    recommendation whose ids match nothing joins to `null` fields. -/
theorem enrichRecommendations_join_tolerance_witness :
    (enrichRecommendations
        [⟨1, "ghost-flight", some "ghost-hotel", 500, 70, "r", [], [], "b", none⟩]
        [flightD1] [hotelH1] none).length = 1 ∧
    ((enrichRecommendations
        [⟨1, "ghost-flight", some "ghost-hotel", 500, 70, "r", [], [], "b", none⟩]
        [flightD1] [hotelH1] none).get ⟨0, by decide⟩).base =
      ⟨1, "ghost-flight", some "ghost-hotel", 500, 70, "r", [], [], "b", none⟩ ∧
    ((enrichRecommendations
        [⟨1, "ghost-flight", some "ghost-hotel", 500, 70, "r", [], [], "b", none⟩]
        [flightD1] [hotelH1] none).get ⟨0, by decide⟩).flight = none ∧
    ((enrichRecommendations
        [⟨1, "ghost-flight", some "ghost-hotel", 500, 70, "r", [], [], "b", none⟩]
        [flightD1] [hotelH1] none).get ⟨0, by decide⟩).hotel = none := by
  have h := (enrichRecommendations_join_tolerance
    [⟨1, "ghost-flight", some "ghost-hotel", 500, 70, "r", [], [], "b", none⟩]
    [flightD1] [hotelH1] none).2 0 (by simp [enrichRecommendations]) (by decide)
  exact ⟨(enrichRecommendations_join_tolerance
      [⟨1, "ghost-flight", some "ghost-hotel", 500, 70, "r", [], [], "b", none⟩]
      [flightD1] [hotelH1] none).1,
    h.1, h.2.1 (by decide), h.2.2 (by decide)⟩

/-! ## C1: the deterministic fallback of the analysis step -/

theorem jsMapIdx_length (f : Nat → α → β) (s : Nat) (l : List α) :
    (jsMapIdx f s l).length = l.length := by
  induction l generalizing s with
  | nil => rfl
  | cons a t ih => simp [jsMapIdx, ih]

theorem jsMapIdx_getElem (f : Nat → α → β) (s : Nat) (l : List α) (i : Nat)
    (hi : i < (jsMapIdx f s l).length) (hl : i < l.length) :
    (jsMapIdx f s l)[i] = f (s + i) l[i] := by
  induction l generalizing s i with
  | nil => simp at hl
  | cons a t ih =>
    cases i with
    | zero => simp [jsMapIdx]
    | succ n =>
      have hi' : n < (jsMapIdx f (s + 1) t).length := by
        simpa [jsMapIdx] using hi
      have hl' : n < t.length := by simpa using hl
      simp only [jsMapIdx, List.getElem_cons_succ]
      rw [ih (s + 1) n hi' hl']
      have : s + 1 + n = s + (n + 1) := by omega
      rw [this]

/-- Counterexample to C1 as stated: with the fetched flights priced
    `[200, 100]` (and no hotels, so each entry's `totalPrice` is exactly
    its flight's original price), the fallback keeps the fetched order —
    it does **not** reorder by ascending flight price. -/
theorem fallback_not_price_sorted :
    (fallbackRecommendations [mkFlight "fx" 200, mkFlight "fy" 100] [] none).map
        (fun r => r.totalPrice) = [200, 100] ∧
    ¬ List.Pairwise (fun a b => a.totalPrice ≤ b.totalPrice)
        (fallbackRecommendations [mkFlight "fx" 200, mkFlight "fy" 100] [] none) := by
  constructor
  · rfl
  · intro hp
    rcases hp with _ | ⟨hle, _⟩
    have := hle _ (List.mem_singleton.mpr rfl)
    revert this
    decide

/-- C1 (amended).  If the analysis step throws, the fallback produces
    `min(5, flightsFetched)` recommendations that pair the first 5
    fetched flights **in their fetched order** (not re-sorted) with the
    first hotel (or a `null` hotel id if there is none), rank `i + 1` and
    `valueScore = 70 - 5 * i` for the `i`-th entry — strictly decreasing
    by rank; consequently the output is ordered by ascending original
    flight price exactly when the fetched prefix already is. -/
theorem fallbackRecommendations_spec (flights : List FlightOption)
    (hotels : List HotelOption) (sd : Option String)
    (hh : ∀ h ∈ hotels, h.id ≠ "") :
    (fallbackRecommendations flights hotels sd).length = min 5 flights.length ∧
    (∀ i (hi : i < (fallbackRecommendations flights hotels sd).length)
      (hif : i < flights.length),
      (fallbackRecommendations flights hotels sd)[i].rank = i + 1 ∧
      (fallbackRecommendations flights hotels sd)[i].flightId = flights[i].id ∧
      (fallbackRecommendations flights hotels sd)[i].hotelId =
        hotels.head?.map (fun h => h.id) ∧
      (fallbackRecommendations flights hotels sd)[i].totalPrice =
        flights[i].price.total + firstHotelOfferTotal hotels ∧
      (fallbackRecommendations flights hotels sd)[i].valueScore =
        70 - (i : Int) * 5) ∧
    (∀ i j (hi : i < (fallbackRecommendations flights hotels sd).length)
      (hj : j < (fallbackRecommendations flights hotels sd).length), i < j →
      (fallbackRecommendations flights hotels sd)[j].valueScore <
        (fallbackRecommendations flights hotels sd)[i].valueScore) ∧
    (List.Pairwise (fun a b => a.price.total ≤ b.price.total) flights →
      List.Pairwise (fun a b => a.totalPrice ≤ b.totalPrice)
        (fallbackRecommendations flights hotels sd)) := by
  have hlen : (fallbackRecommendations flights hotels sd).length = min 5 flights.length := by
    unfold fallbackRecommendations
    rw [jsMapIdx_length, List.length_take]
  have hfid : firstHotelId hotels = hotels.head?.map (fun h => h.id) := by
    cases hotels with
    | nil => rfl
    | cons h t =>
      have : h.id ≠ "" := hh h (List.mem_cons_self h t)
      simp [firstHotelId, this]
  have hget : ∀ i (hi : i < (fallbackRecommendations flights hotels sd).length)
      (hif : i < flights.length),
      (fallbackRecommendations flights hotels sd)[i].rank = i + 1 ∧
      (fallbackRecommendations flights hotels sd)[i].flightId = flights[i].id ∧
      (fallbackRecommendations flights hotels sd)[i].hotelId =
        hotels.head?.map (fun h => h.id) ∧
      (fallbackRecommendations flights hotels sd)[i].totalPrice =
        flights[i].price.total + firstHotelOfferTotal hotels ∧
      (fallbackRecommendations flights hotels sd)[i].valueScore =
        70 - (i : Int) * 5 := by
    intro i hi hif
    have hit : i < (flights.take 5).length := by
      rw [hlen] at hi
      rw [List.length_take]
      omega
    have hmap : i < (jsMapIdx (fun index flight =>
        ({ rank := index + 1
           flightId := flight.id
           hotelId := firstHotelId hotels
           totalPrice := flight.price.total + firstHotelOfferTotal hotels
           valueScore := 70 - ((index : Int) * 5)
           reasoning := "Flight option " ++ toString (index + 1) ++ " - " ++
             flight.price.currency ++ " " ++ toString flight.price.total
           pros := ["Direct booking available"]
           cons := ["AI analysis unavailable"]
           bestFor := "General travelers"
           suggestedDates := sd } : Recommendation)) 0 (flights.take 5)).length := hi
    unfold fallbackRecommendations
    rw [jsMapIdx_getElem _ 0 _ i hmap hit]
    have htake : (flights.take 5)[i] = flights[i] := List.getElem_take flights
    rw [htake, hfid]
    simp
  refine ⟨hlen, hget, ?_, ?_⟩
  · intro i j hi hj hij
    have hif : i < flights.length := by rw [hlen] at hi; omega
    have hjf : j < flights.length := by rw [hlen] at hj; omega
    have h1 := (hget i hi hif).2.2.2.2
    have h2 := (hget j hj hjf).2.2.2.2
    rw [h1, h2]
    have : (i : Int) < (j : Int) := by exact_mod_cast hij
    omega
  · intro hp
    rw [List.pairwise_iff_get] at hp ⊢
    intro a b hab
    have ha : (a : Nat) < (fallbackRecommendations flights hotels sd).length := a.isLt
    have hbb : (b : Nat) < (fallbackRecommendations flights hotels sd).length := b.isLt
    have haf : (a : Nat) < flights.length :=
      lt_of_lt_of_le (lt_of_lt_of_le a.isLt (le_of_eq hlen)) (min_le_right _ _)
    have hbf : (b : Nat) < flights.length :=
      lt_of_lt_of_le (lt_of_lt_of_le b.isLt (le_of_eq hlen)) (min_le_right _ _)
    have h1 := (hget a ha haf).2.2.2.1
    have h2 := (hget b hbb hbf).2.2.2.1
    have hmono : flights[(a : Nat)].price.total ≤ flights[(b : Nat)].price.total := by
      simpa using hp ⟨a, haf⟩ ⟨b, hbf⟩ (by exact_mod_cast hab)
    rw [List.get_eq_getElem, List.get_eq_getElem, h1, h2]
    omega

/-- Witness for `fallbackRecommendations_spec` on two concrete flights
    and one hotel. -/
theorem fallbackRecommendations_spec_witness :
    (fallbackRecommendations [flightD1, flightD2] [hotelH1] none).length = min 5 2 ∧
    ((fallbackRecommendations [flightD1, flightD2] [hotelH1] none).get
        ⟨0, by decide⟩).valueScore = 70 - (0 : Int) * 5 := by
  have h := fallbackRecommendations_spec [flightD1, flightD2] [hotelH1] none
    (by intro x hx; rcases List.mem_singleton.mp hx with rfl; decide)
  exact ⟨h.1, ((h.2.1 0 (by decide) (by decide)).2.2.2.2)⟩

end TravelAgent
